import Mathlib

/-!
Verification of `flask_sapb1/flask_sapb1.py` (Flask-SAPB1), a SAP Business One
integration adaptor.  The Python source is shallowly embedded below: Python
dicts become association lists `List (String × α)` (Python dicts preserve
insertion order and have unique keys), Python strings become `String`,
raisable code returns `Except PyErr`, and the COM / SQL remote endpoints are
passed in as explicit oracle functions.
-/

namespace FlaskSAPB1

/-! ## Python-level modelling helpers -/

/-- Python exception values that the embedded code can raise. -/
inductive PyErr where
  | exception (msg : String)
  | attributeError (name : String)
  | valueError (msg : String)
  | typeError (msg : String)
  | keyError (key : String)
  deriving DecidableEq

/-- Python dict lookup `d[k]` on an association list (dicts have unique keys,
so first-match lookup is dict lookup). -/
def dictGet {α : Type} (d : List (String × α)) (k : String) : Option α :=
  match d with
  | [] => none
  | kv :: rest => if kv.1 == k then some kv.2 else dictGet rest k

/-- Python prefix slice `s[0:n]` for a non-negative bound `n`. -/
def strTake (s : String) (n : Nat) : String :=
  String.mk (s.data.take n)

/-- Python prefix slice `s[0:stop]` where `stop` may be negative
(a negative stop counts from the end, as in Python). -/
def pySlice0 (s : String) (stop : Int) : String :=
  if stop < 0 then strTake s (s.length - stop.natAbs) else strTake s stop.toNat

/-- `v` occurs verbatim inside the statement text `sql`. -/
def containsVal (sql v : String) : Prop :=
  ∃ a b : List Char, sql.data = a ++ v.data ++ b

/-- Python truthiness of an optional-string argument
(`None` and the empty string are falsy). -/
def pyTruthy (o : Option String) : Bool :=
  match o with
  | none => false
  | some s => !s.isEmpty

/-! ## `SAPB1Adaptor.trimValue` (lines 145-150)

    if len(value) > maxLength:
        return value[0:maxLength-1]
    return value
-/

def trimValue (value : String) (maxLength : Nat) : String :=
  if value.length > maxLength then pySlice0 value ((maxLength : Int) - 1)
  else value

/-! ## `SAPB1Adaptor.getOrders` query construction (lines 152-163)

    cols = '*'
    if len(columns) > 0:
        cols = " ,".join(columns)
    ops = {key: '=' if 'op' not in params[key].keys() else params[key]['op']
           for key in params.keys()}
    sql = """SELECT top {0} {1} FROM dbo.ORDR""".format(num, cols)
    if len(params) > 0:
        sql = sql + ' WHERE ' + " AND ".join(
            ["{0} {1} %({2})s".format(k, ops[k], k) for k in params.keys()])
    cursor.execute(sql, {key: params[key]['value'] for key in params.keys()})
-/

/-- One filter entry of a `params` dict: a `value` and an optional `op` key. -/
structure FilterSpec where
  value : String
  op : Option String
  deriving DecidableEq

/-- `'=' if 'op' not in params[key].keys() else params[key]['op']` -/
def opOf (f : FilterSpec) : String :=
  match f.op with
  | none => "="
  | some o => o

/-- The `ops` dict comprehension over the keys of `params`. -/
def buildOps (params : List (String × FilterSpec)) : List (String × String) :=
  params.map (fun p => (p.1, opOf p.2))

/-- `cols = '*'` overridden with `" ,".join(columns)` when columns is non-empty. -/
def colsFor (columns : List String) : String :=
  if columns.length > 0 then String.intercalate " ," columns else "*"

/-- `"""SELECT top {0} {1} FROM dbo.ORDR""".format(num, cols)` -/
def ordersBase (num : Nat) (columns : List String) : String :=
  "SELECT top " ++ toString num ++ " " ++ colsFor columns ++ " FROM dbo.ORDR"

/-- `" AND ".join(["{0} {1} %({2})s".format(k, ops[k], k) for k in params.keys()])` -/
def whereJoin (ops : List (String × String)) (params : List (String × FilterSpec)) : String :=
  String.intercalate " AND "
    (params.map (fun p => p.1 ++ " " ++ (dictGet ops p.1).getD "" ++ " %(" ++ p.1 ++ ")s"))

/-- The statement text `sql` that `getOrders` hands to `cursor.execute`:
the base SELECT, extended with the WHERE join when `len(params) > 0`. -/
def getOrdersSql (num : Nat) (columns : List String) (params : List (String × FilterSpec)) : String :=
  if params.length > 0 then
    ordersBase num columns ++ " WHERE " ++ whereJoin (buildOps params) params
  else ordersBase num columns

/-- The separate parameter mapping `{key: params[key]['value'] for key in params.keys()}`
that `getOrders` hands to `cursor.execute` next to the statement text. -/
def getOrdersParamMap (params : List (String × FilterSpec)) : List (String × String) :=
  params.map (fun p => (p.1, p.2.value))

/-! ## `SAPB1Adaptor.getItems` query construction (lines 434-451)

`getItems` interpolates `whs` / `code` straight into the statement with
`.format`, and calls `fetch_all(sql)` with no parameter mapping at all. -/

def itemsDefaultCols : String :=
  "ItemCode, ItemName, ItmsGrpCod, UgpEntry, U_MARCA, U_DIVISION, AvgPrice, CreateDate, UpdateDate"

def getItemsSql (limit : Nat) (columns whs code : Option String) : String :=
  let cols := if pyTruthy columns then columns.getD "" else itemsDefaultCols
  if pyTruthy whs then
    "SELECT top " ++ toString limit ++ " " ++ cols ++ " FROM dbo.OITM\n"
      ++ "                     WHERE ItemCode in\n"
      ++ "                         (SELECT ItemCode FROM dbo.OITW\n"
      ++ "                          WHERE WhsCode = '" ++ whs.getD "" ++ "')"
  else if pyTruthy code then
    "SELECT " ++ cols ++ " FROM dbo.OITM\n"
      ++ "                     WHERE ItemCode = '" ++ code.getD "" ++ "'"
  else
    "SELECT top " ++ toString limit ++ " " ++ cols ++ " FROM dbo.OITM"

/-- `getItems` passes no parameter mapping: `fetch_all(sql)` has no args. -/
def getItemsParamMap : List (String × String) := []

/-! ## `SAPB1Adaptor.getPrices` query construction (lines 453-475) -/

def pricesDefaultCols : String :=
  "ItemCode, Price, Currency, Ovrwritten, Factor"

def pricesListNumber : Nat := 2

def getPricesSql (limit : Nat) (columns whs code : Option String) : String :=
  let cols := if pyTruthy columns then columns.getD "" else pricesDefaultCols
  if pyTruthy whs then
    "SELECT top " ++ toString limit ++ " " ++ cols ++ " FROM dbo.ITM1\n"
      ++ "                     WHERE PriceList = " ++ toString pricesListNumber ++ "\n"
      ++ "                     AND ItemCode in\n"
      ++ "                         (SELECT ItemCode FROM dbo.OITW\n"
      ++ "                          WHERE WhsCode = '" ++ whs.getD "" ++ "')"
  else if pyTruthy code then
    "SELECT " ++ cols ++ " FROM dbo.ITM1\n"
      ++ "                     WHERE PriceList = " ++ toString pricesListNumber ++ "\n"
      ++ "                     AND ItemCode = '" ++ code.getD "" ++ "'"
  else
    "SELECT top " ++ toString limit ++ " " ++ cols ++ " FROM dbo.ITM1\n"
      ++ "                     WHERE PriceList = " ++ toString pricesListNumber

/-- `getPrices` passes no parameter mapping either. -/
def getPricesParamMap : List (String × String) := []

/-! ## Row normalization (`MsSqlAdaptor.fetch_all`, lines 67-80, and the
per-row loop of `getOrders`, lines 164-175) -/

/-- A `datetime.datetime` value (date and time components). -/
structure PyDatetime where
  year : Nat
  month : Nat
  day : Nat
  hour : Nat
  minute : Nat
  second : Nat
  deriving DecidableEq

/-- A raw column value coming back from the SQL driver. -/
inductive PyVal where
  | vNone
  | vStr (s : String)
  | vInt (n : Int)
  | vBool (b : Bool)
  | vDatetime (d : PyDatetime)
  | vDecimal (digits : String)
  deriving DecidableEq

def pad2 (n : Nat) : String :=
  if n < 10 then "0" ++ toString n else toString n

def pad4 (n : Nat) : String :=
  if n < 10 then "000" ++ toString n
  else if n < 100 then "00" ++ toString n
  else if n < 1000 then "0" ++ toString n
  else toString n

/-- `v.strftime("%Y-%m-%d %H:%M:%S")` -/
def strftimeYmdHMS (d : PyDatetime) : String :=
  pad4 d.year ++ "-" ++ pad2 d.month ++ "-" ++ pad2 d.day ++ " "
    ++ pad2 d.hour ++ ":" ++ pad2 d.minute ++ ":" ++ pad2 d.second

/-- Python `str(v)` on the column values we model. -/
def pyStr : PyVal → String
  | .vNone => "None"
  | .vStr s => s
  | .vInt n => toString n
  | .vBool b => if b then "True" else "False"
  | .vDatetime d => strftimeYmdHMS d
  | .vDecimal ds => ds

/-- The per-value normalization of `fetch_all` (lines 72-78):
`value = ''`, datetimes are formatted, Decimals become `str(v)`,
any other non-None value is kept as is, None stays `''`. -/
def normalizeFetchAll (v : PyVal) : PyVal :=
  match v with
  | .vDatetime d => .vStr (strftimeYmdHMS d)
  | .vDecimal ds => .vStr ds
  | .vNone => .vStr ""
  | w => w

/-- The per-value normalization of `getOrders` (lines 168-172):
datetimes are formatted, any other non-None value becomes `str(v)`,
None stays `''`. -/
def normalizeOrderVal (v : PyVal) : String :=
  match v with
  | .vDatetime d => strftimeYmdHMS d
  | .vNone => ""
  | w => pyStr w

/-- The row loop of `fetch_all`: `item[k] = value` for every `k, v` in the row. -/
def fetchAllRow (row : List (String × PyVal)) : List (String × PyVal) :=
  row.map (fun kv => (kv.1, normalizeFetchAll kv.2))

/-- The row loop of `getOrders`: `order[k] = value` for every `k, v` in the row. -/
def getOrdersRow (row : List (String × PyVal)) : List (String × String) :=
  row.map (fun kv => (kv.1, normalizeOrderVal kv.2))

/-! ## Attribute lookup on `SAPB1Adaptor`

`SAPB1Adaptor` instances carry the attribute `app` (set in `__init__`) plus
the methods and properties of the class; notably there is no attribute
`company` and no attribute `logger`, although `insertContact` (line 220) and
`cancelOrder` (lines 391-392) dereference `self.company` / `self.logger`. -/

def sapB1AdaptorAttrs : List String :=
  ["app", "init_app", "teardown", "info", "com_adaptor", "sql_adaptor",
   "trimValue", "getOrders", "getMainCurrency", "getContacts", "insertContact",
   "getContactPersonCode", "getExpnsCode", "getTrnspCode", "getExpnsNames",
   "getTrnspNames", "getPayMethCods", "getTaxCodes", "insertOrder",
   "cancelOrder", "_getShipmentItems", "getShipments", "getItems", "getPrices"]

/-- `getattr(self, name)` succeeds exactly when `name` is an attribute of
`SAPB1Adaptor`; otherwise Python raises `AttributeError`. -/
def selfHasAttr (name : String) : Bool :=
  sapB1AdaptorAttrs.contains name

/-! ## `SAPB1Adaptor.insertContact` (lines 196-232) -/

/-- Lines 209-210:
`name = contact['FirstName'] + ' ' + contact['LastName']` then
`name = name[0:36] + ' ' + str(time())`.  The rendered timestamp
`str(time())` is passed in as `timeStr`. -/
def insertContactName (firstName lastName timeStr : String) : String :=
  strTake (firstName ++ " " ++ lastName) 36 ++ " " ++ timeStr

/-- Lines 218-222: the commit check of `insertContact`.  On a non-zero
return code the code evaluates `self.company` before it can raise the
intended `Exception`. -/
def insertContactCommitCheck (lRetCode : Int) (lastErrorDescription : String) :
    Except PyErr Unit :=
  if lRetCode != 0 then
    if selfHasAttr "company" then .error (.exception lastErrorDescription)
    else .error (.attributeError "company")
  else .ok ()

/-- Lines 360-364: the commit check of `insertOrder`, which reads the error
text through `self.com_adaptor.company.GetLastError()`. -/
def insertOrderCommitCheck (lRetCode : Int) (lastError : String) :
    Except PyErr Unit :=
  if lRetCode != 0 then
    if selfHasAttr "com_adaptor" then .error (.exception lastError)
    else .error (.attributeError "com_adaptor")
  else .ok ()

/-! ## `SAPB1Adaptor.cancelOrder` (lines 375-397) -/

/-- The slice of the order payload `o` that `cancelOrder` reads:
`o['fe_order_id']` (already a string; `str` on it is the identity) and the
optional key `'fe_order_id_udf'`. -/
structure OrderRef where
  feOrderId : String
  feOrderIdUdf : Option String
  deriving DecidableEq

/-- Lines 381-384: the lookup filter map, keyed by the UDF field when
`'fe_order_id_udf' in o.keys()`, else by `NumAtCard`. -/
def cancelParams (o : OrderRef) : List (String × FilterSpec) :=
  match o.feOrderIdUdf with
  | some udf => [(udf, ⟨o.feOrderId, none⟩)]
  | none => [("NumAtCard", ⟨o.feOrderId, none⟩)]

/-- Lines 375-397.  `look` is the oracle standing for
`self.getOrders(num=1, columns=['DocEntry'], params=...)` (rows as returned
from the database), `cancelRet` stands for `order.Cancel()` on the resolved
document entry, `lastError` for the remote error text. -/
def cancelOrder (look : List (String × FilterSpec) → List (List (String × String)))
    (cancelRet : String → Int) (lastError : String) (o : OrderRef) :
    Except PyErr String :=
  let params := cancelParams o
  let orders := look params
  match orders with
  | [] => .error (.exception ("Order " ++ o.feOrderId ++ " is not found."))
  | row :: _ =>
    match dictGet row "DocEntry" with
    | none => .error (.keyError "DocEntry")
    | some boOrderId =>
      if cancelRet boOrderId != 0 then
        if selfHasAttr "company" then .error (.exception lastError)
        else .error (.attributeError "company")
      else .ok boOrderId

/-! ## `SAPB1Adaptor.getShipments` (lines 414-432) and
`_getShipmentItems` (lines 399-412) -/

/-- Lines 418-419: `if 'DocEntry' not in columns: columns.append('DocEntry')`.
The append mutates the caller's list in place; this function returns the
mutated list. -/
def getShipmentsColumns (columns : List String) : List String :=
  if "DocEntry" ∈ columns then columns else columns ++ ["DocEntry"]

/-- Lines 417, 420-421: `cols = '*'`, overridden with `" ,".join(columns)`
when the (already mutated) columns list is non-empty. -/
def getShipmentsColsStr (columns : List String) : String :=
  let columns' := getShipmentsColumns columns
  if columns'.length > 0 then String.intercalate " ," columns' else "*"

/-- Lines 422-425: the statement text handed to `fetch_all`. -/
def getShipmentsSql (num : Nat) (columns : List String)
    (params : List (String × FilterSpec)) : String :=
  let sql := "SELECT top " ++ toString num ++ " " ++ getShipmentsColsStr columns
    ++ " FROM dbo.ODLN"
  if params.length > 0 then sql ++ " WHERE " ++ whereJoin (buildOps params) params
  else sql

/-- Python unpacking `key, v = s` where `s` is a string: succeeds only when
`s` has exactly two characters (each target gets a one-character string);
otherwise `ValueError`. -/
def unpackStr2 (s : String) : Except PyErr (String × String) :=
  match s.data with
  | [a, b] => .ok (String.mk [a], String.mk [b])
  | _ => .error (.valueError "too many values to unpack")

/-- Python 2 `v['value']` where `v` is a string: always `TypeError`. -/
def strGetItemStr (_v _idx : String) : Except PyErr String :=
  .error (.typeError "string indices must be integers")

/-- Line 427: `p = {key: v['value'] for key, v in params.keys()}` — the
comprehension iterates the KEYS of `params` but destructures each key as a
pair. -/
def shipmentsParamMapComp (params : List (String × FilterSpec)) :
    Except PyErr (List (String × String)) :=
  params.mapM (fun entry => do
    let kv ← unpackStr2 entry.1
    let value ← strGetItemStr kv.2 "value"
    pure (kv.1, value))

/-- Lines 402-410: the statement text of `_getShipmentItems`
(its one filter `DocEntry` is bound as a parameter). -/
def getShipmentItemsSql (columns : List String) : String :=
  let cols := if columns.length > 0 then String.intercalate " ," columns else "*"
  "SELECT " ++ cols ++ " FROM dbo.DLN1" ++ " WHERE " ++ "DocEntry = %(DocEntry)s"

/-- A shipment header row together with its attached `'items'` list. -/
structure ShipmentRow where
  fields : List (String × PyVal)
  items : List (List (String × PyVal))
  deriving DecidableEq

/-- Lines 414-432.  `fetchShipments` stands for
`fetch_all(sql, **p)` on `ODLN`, `fetchItems` for `fetch_all` of
`_getShipmentItems` on `DLN1`.  Returns the (mutated) columns list and the
shipment rows, each augmented with its `'items'`. -/
def getShipments
    (fetchShipments : String → List (String × String) → List (List (String × PyVal)))
    (fetchItems : String → PyVal → List (List (String × PyVal)))
    (num : Nat) (columns : List String) (params : List (String × FilterSpec))
    (itemColumns : List String) :
    Except PyErr (List String × List ShipmentRow) := do
  let columns' := getShipmentsColumns columns
  let sql := getShipmentsSql num columns params
  let p ← shipmentsParamMapComp params
  let shipments := fetchShipments sql p
  let rows ← shipments.mapM (fun shipment => do
    match dictGet shipment "DocEntry" with
    | none => Except.error (PyErr.keyError "DocEntry")
    | some shipmentId =>
      Except.ok
        { fields := shipment
          items := fetchItems (getShipmentItemsSql itemColumns) shipmentId })
  pure (columns', rows)

/-- A call to `getShipments` either omits the `columns` argument (and then
uses — and mutates — the shared default list) or passes its own list. -/
inductive ShipCall where
  | noColumnsArg
  | withColumnsArg (cs : List String)
  deriving DecidableEq

/-- Evolution of the default-argument cell of `columns=[]` across a sequence
of calls: a call without a `columns` argument hands the cell itself to the
body, whose in-place `append` updates the cell; a call with an explicit list
leaves the cell alone. -/
def shipDefaultCell : List ShipCall → List String → List String
  | [], cell => cell
  | .noColumnsArg :: rest, cell => shipDefaultCell rest (getShipmentsColumns cell)
  | .withColumnsArg _ :: rest, cell => shipDefaultCell rest cell

/-! ## Connection lifecycle (`teardown` lines 105-110, `com_adaptor`
lines 124-133, `sql_adaptor` lines 135-143) -/

/-- A connection adaptor handle (`SapB1ComAdaptor` / `MsSqlAdaptor`):
all we track is whether its connection is live. -/
structure ConnHandle where
  connected : Bool
  deriving DecidableEq

/-- The ambient context object `stack.top`, carrying the memoized
`_COM` and `_SQL` attributes (absent until first access). -/
structure AppCtx where
  comAttr : Option ConnHandle
  sqlAttr : Option ConnHandle
  deriving DecidableEq

/-- The `com_adaptor` property: return the memoized `ctx._COM` if the
attribute exists, else connect a fresh adaptor, memoize it and return it.
The `Bool` reports whether a new connection was opened by this access. -/
def comAdaptorAccess (ctx : AppCtx) : ConnHandle × AppCtx × Bool :=
  match ctx.comAttr with
  | some c => (c, ctx, false)
  | none => (⟨true⟩, { ctx with comAttr := some ⟨true⟩ }, true)

/-- The `sql_adaptor` property, same shape on `ctx._SQL`. -/
def sqlAdaptorAccess (ctx : AppCtx) : ConnHandle × AppCtx × Bool :=
  match ctx.sqlAttr with
  | some c => (c, ctx, false)
  | none => (⟨true⟩, { ctx with sqlAttr := some ⟨true⟩ }, true)

/-- `teardown` (lines 105-110): `disconnect()` each adaptor whose attribute
is present on the context.  The attributes themselves are not removed. -/
def teardown (ctx : AppCtx) : AppCtx :=
  { comAttr := ctx.comAttr.map (fun _ => ⟨false⟩)
    sqlAttr := ctx.sqlAttr.map (fun _ => ⟨false⟩) }

/-- The accesses a unit of work may perform before its teardown. -/
inductive ConnEv where
  | accessCom
  | accessSql
  deriving DecidableEq

/-- Run a sequence of accesses; returns the final context together with how
many times each of the two connections was actually opened. -/
def runAccesses : List ConnEv → AppCtx → AppCtx × Nat × Nat
  | [], ctx => (ctx, 0, 0)
  | .accessCom :: rest, ctx =>
    let r := comAdaptorAccess ctx
    let t := runAccesses rest r.2.1
    (t.1, t.2.1 + (if r.2.2 then 1 else 0), t.2.2)
  | .accessSql :: rest, ctx =>
    let r := sqlAdaptorAccess ctx
    let t := runAccesses rest r.2.1
    (t.1, t.2.1, t.2.2 + (if r.2.2 then 1 else 0))

/-- An all-`'a'` string of length `n` (concrete test input). -/
def aStr (n : Nat) : String :=
  String.mk (List.replicate n 'a')

/-! # Helper lemmas -/

/-- Lookup commutes with a value-wise map of an association list. -/
theorem dictGet_map_value {α β : Type} (f : α → β) (row : List (String × α)) (k : String) :
    dictGet (row.map (fun kv => (kv.1, f kv.2))) k = (dictGet row k).map f := by
  induction row with
  | nil => rfl
  | cons hd tl ih =>
    by_cases h : hd.1 == k
    · simp [dictGet, h]
    · simp [dictGet, h, ih]

/-- Lookup in a dict comprehension `{p[0]: g(p) for p in params}` whose keys
come from a dict (hence are distinct) finds the image of the unique entry. -/
theorem dictGet_keyed_map {β : Type} (g : String × FilterSpec → β)
    (params : List (String × FilterSpec)) (k : String) (f : FilterSpec)
    (hnd : (params.map Prod.fst).Nodup) (hmem : (k, f) ∈ params) :
    dictGet (params.map (fun p => (p.1, g p))) k = some (g (k, f)) := by
  induction params with
  | nil => cases hmem
  | cons hd tl ih =>
    rw [List.map_cons, List.nodup_cons] at hnd
    rcases List.mem_cons.mp hmem with heq | hm
    · rw [← heq]
      simp [dictGet]
    · have hk : (hd.1 == k) = false := by
        apply beq_false_of_ne
        intro hkk
        apply hnd.1
        rw [hkk]
        exact List.mem_map.mpr ⟨(k, f), hm, rfl⟩
      simp only [List.map_cons, dictGet, hk, Bool.false_eq_true, if_false]
      exact ih hnd.2 hm

/-- A string built as `y ++ w ++ t` contains `w` verbatim. -/
theorem containsVal_of_shape (y w t : String) : containsVal (y ++ w ++ t) w :=
  ⟨y.data, t.data, by simp [String.data_append]⟩

/-! # Claim theorems -/

set_option maxRecDepth 4000 in
/-- Claim C4, counterexample: `trimValue` applied by `insertOrder` to a
150-character `billto_address` with cap 100 returns a 99-character prefix,
not a prefix of exactly the cap length 100. -/
theorem trimValue_cap_counterexample :
    (aStr 150).length = 150
    ∧ (trimValue (aStr 150) 100).length = 99
    ∧ ¬ (trimValue (aStr 150) 100).length = 100 := by
  refine ⟨?_, ?_, ?_⟩ <;> decide

/-- Claim C4 (amended): for an input strictly longer than its cap
`m ≥ 1`, `trimValue` returns the prefix of exactly `m - 1` characters
(`value[0:maxLength-1]`, line 149); a string at or under the cap is
returned unchanged. -/
theorem trimValue_truncates (s : String) (m : Nat) (hm : 1 ≤ m) :
    (s.length > m → trimValue s m = strTake s (m - 1) ∧ (trimValue s m).length = m - 1)
    ∧ (s.length ≤ m → trimValue s m = s) := by
  constructor
  · intro hgt
    have hstop : ¬ (((m : Int) - 1) < 0) := by omega
    have htn : ((m : Int) - 1).toNat = m - 1 := by omega
    have he : trimValue s m = strTake s (m - 1) := by
      simp only [trimValue, pySlice0, if_pos hgt, if_neg hstop, htn]
    refine ⟨he, ?_⟩
    rw [he]
    have hlen : s.length = s.data.length := rfl
    show (s.data.take (m - 1)).length = m - 1
    rw [List.length_take]
    omega
  · intro hle
    simp only [trimValue, if_neg (by omega : ¬ s.length > m)]

set_option maxRecDepth 4000 in
/-- Witness for claim C4's amended theorem at the concrete input of the
claim: a 150-character address with cap 100. -/
theorem trimValue_truncates_witness :
    trimValue (aStr 150) 100 = strTake (aStr 150) 99
    ∧ (trimValue (aStr 150) 100).length = 99 :=
  (trimValue_truncates (aStr 150) 100 (by decide)).1 (by decide)

/-- Claim C7: both row normalizers (`fetch_all`, lines 67-80, and the
per-row loop of `getOrders`, lines 164-175) map a null column to the empty
string; both are total functions of the column value, so normalization
never fails on any modelled column type. -/
theorem normalize_null_to_empty (row : List (String × PyVal)) (k : String)
    (h : dictGet row k = some PyVal.vNone) :
    dictGet (fetchAllRow row) k = some (PyVal.vStr "")
    ∧ dictGet (getOrdersRow row) k = some "" := by
  constructor
  · rw [fetchAllRow, dictGet_map_value, h]; rfl
  · rw [getOrdersRow, dictGet_map_value, h]; rfl

/-- Witness for claim C7 at a concrete one-column null row. -/
theorem normalize_null_to_empty_witness :
    dictGet (fetchAllRow [("DocDate", PyVal.vNone)]) "DocDate" = some (PyVal.vStr "")
    ∧ dictGet (getOrdersRow [("DocDate", PyVal.vNone)]) "DocDate" = some "" :=
  normalize_null_to_empty [("DocDate", PyVal.vNone)] "DocDate" (by decide)

/-- Claim C6: the `getOrders` query builder (lines 152-163): an empty filter
map produces the bare SELECT with no WHERE clause; a non-empty filter map
produces exactly one `column operator %(column)s` clause per filter key,
joined by ` AND ` in key iteration order; the operator defaults to `=` when
the entry has no `'op'` key; each filter value is placed in the separate
parameter mapping under its key. -/
theorem getOrders_query_builder (num : Nat) (cols : List String)
    (params : List (String × FilterSpec)) (hnd : (params.map Prod.fst).Nodup) :
    (params = [] → getOrdersSql num cols params = ordersBase num cols)
    ∧ (params ≠ [] →
        getOrdersSql num cols params
          = ordersBase num cols ++ " WHERE "
            ++ String.intercalate " AND "
                (params.map (fun p => p.1 ++ " " ++ opOf p.2 ++ " %(" ++ p.1 ++ ")s")))
    ∧ (∀ v, opOf (FilterSpec.mk v none) = "=")
    ∧ (∀ k f, (k, f) ∈ params → dictGet (getOrdersParamMap params) k = some f.value) := by
  refine ⟨?_, ?_, fun v => rfl, ?_⟩
  · intro h
    subst h
    rfl
  · intro hne
    have hlen : params.length > 0 := by
      cases params with
      | nil => exact absurd rfl hne
      | cons a l => simp
    simp only [getOrdersSql, if_pos hlen]
    congr 1
    unfold whereJoin
    congr 1
    apply List.map_congr_left
    intro p hp
    rw [show dictGet (buildOps params) p.1 = some (opOf p.2) from
      dictGet_keyed_map (fun q => opOf q.2) params p.1 p.2 hnd hp]
    rfl
  · intro k f hmem
    exact dictGet_keyed_map (fun q => q.2.value) params k f hnd hmem

/-- Witness for claim C6 at a concrete filter map with two keys, one with an
explicit operator and one relying on the `=` default. -/
theorem getOrders_query_builder_witness :
    getOrdersSql 5 ["DocEntry"] [] = ordersBase 5 ["DocEntry"]
    ∧ getOrdersSql 1 ["DocEntry"]
          [("NumAtCard", FilterSpec.mk "A1" none), ("CardCode", FilterSpec.mk "C1" (some "!="))]
        = ordersBase 1 ["DocEntry"] ++ " WHERE "
          ++ String.intercalate " AND "
              ([("NumAtCard", FilterSpec.mk "A1" none), ("CardCode", FilterSpec.mk "C1" (some "!="))].map
                (fun p => p.1 ++ " " ++ opOf p.2 ++ " %(" ++ p.1 ++ ")s"))
    ∧ dictGet (getOrdersParamMap
          [("NumAtCard", FilterSpec.mk "A1" none), ("CardCode", FilterSpec.mk "C1" (some "!="))])
        "CardCode" = some "C1" :=
  ⟨(getOrders_query_builder 5 ["DocEntry"] [] (by decide)).1 rfl,
   (getOrders_query_builder 1 ["DocEntry"]
      [("NumAtCard", FilterSpec.mk "A1" none), ("CardCode", FilterSpec.mk "C1" (some "!="))]
      (by decide)).2.1 (by decide),
   (getOrders_query_builder 1 ["DocEntry"]
      [("NumAtCard", FilterSpec.mk "A1" none), ("CardCode", FilterSpec.mk "C1" (some "!="))]
      (by decide)).2.2.2 "CardCode" (FilterSpec.mk "C1" (some "!=")) (by decide)⟩

/-- Claim C2, counterexample: `getItems` (lines 441-445) interpolates the
caller-supplied warehouse value verbatim into the generated SQL statement
(`WHERE WhsCode = '{2}'`) and passes no parameter mapping at all, so for the
warehouse value `XQZ7` the statement text contains `XQZ7`. -/
theorem getItems_value_in_sql_counterexample :
    containsVal (getItemsSql 1 none (some "XQZ7") none) "XQZ7"
    ∧ getItemsParamMap = [] := by
  constructor
  · rw [show getItemsSql 1 none (some "XQZ7") none
        = ("SELECT top 1 " ++ itemsDefaultCols ++ " FROM dbo.OITM\n"
            ++ "                     WHERE ItemCode in\n"
            ++ "                         (SELECT ItemCode FROM dbo.OITW\n"
            ++ "                          WHERE WhsCode = '") ++ "XQZ7" ++ "')" from rfl]
    exact containsVal_of_shape _ _ _
  · rfl

/-- Claim C2 (amended): `getOrders` keeps the identifier/value split — its
statement text is unchanged under any substitution of the filter values,
which travel only in the separate parameter mapping — but `getItems` and
`getPrices` interpolate the caller-supplied warehouse and item-code values
verbatim into the statement text and pass no parameter mapping. -/
theorem read_query_value_handling :
    (∀ (num : Nat) (cols : List String) (params : List (String × FilterSpec))
        (g : String → FilterSpec → String),
        getOrdersSql num cols
            (params.map (fun p => (p.1, FilterSpec.mk (g p.1 p.2) p.2.op)))
          = getOrdersSql num cols params)
    ∧ (∀ (limit : Nat) (cols : Option String) (w : String), w ≠ "" →
        containsVal (getItemsSql limit cols (some w) none) w ∧ getItemsParamMap = [])
    ∧ (∀ (limit : Nat) (cols : Option String) (c : String), c ≠ "" →
        containsVal (getItemsSql limit cols none (some c)) c)
    ∧ (∀ (limit : Nat) (cols : Option String) (w : String), w ≠ "" →
        containsVal (getPricesSql limit cols (some w) none) w ∧ getPricesParamMap = [])
    ∧ (∀ (limit : Nat) (cols : Option String) (c : String), c ≠ "" →
        containsVal (getPricesSql limit cols none (some c)) c) := by
  have htruthy : ∀ w : String, w ≠ "" → pyTruthy (some w) = true := by
    intro w hw
    cases hie : w.isEmpty with
    | true => exact absurd ((String.isEmpty_iff w).mp hie) hw
    | false => simp [pyTruthy, hie]
  refine ⟨?_, ?_, ?_, ?_, ?_⟩
  · intro num cols params g
    have hb : buildOps (params.map (fun p => (p.1, FilterSpec.mk (g p.1 p.2) p.2.op)))
        = buildOps params := by
      simp only [buildOps, List.map_map]
      rfl
    have hw : whereJoin (buildOps params)
          (params.map (fun p => (p.1, FilterSpec.mk (g p.1 p.2) p.2.op)))
        = whereJoin (buildOps params) params := by
      simp only [whereJoin, List.map_map]
      rfl
    simp only [getOrdersSql, List.length_map, hb, hw]
  · intro limit cols w hw
    refine ⟨?_, rfl⟩
    simp only [getItemsSql, htruthy w hw, if_true, Option.getD_some]
    exact containsVal_of_shape _ _ _
  · intro limit cols c hc
    have hc' : (!c.isEmpty) = true := htruthy c hc
    simp only [getItemsSql, pyTruthy, Bool.false_eq_true, if_false, hc', if_true,
      Option.getD_some]
    exact containsVal_of_shape _ _ _
  · intro limit cols w hw
    refine ⟨?_, rfl⟩
    simp only [getPricesSql, htruthy w hw, if_true, Option.getD_some]
    exact containsVal_of_shape _ _ _
  · intro limit cols c hc
    have hc' : (!c.isEmpty) = true := htruthy c hc
    simp only [getPricesSql, pyTruthy, Bool.false_eq_true, if_false, hc', if_true,
      Option.getD_some]
    exact containsVal_of_shape _ _ _

/-- Witness for claim C2's amended theorem at concrete warehouse and
item-code values. -/
theorem read_query_value_handling_witness :
    containsVal (getItemsSql 2 none (some "WH9") none) "WH9"
    ∧ containsVal (getItemsSql 2 none none (some "IC1")) "IC1"
    ∧ containsVal (getPricesSql 3 none (some "WH2") none) "WH2"
    ∧ containsVal (getPricesSql 3 none none (some "AB12")) "AB12" :=
  ⟨(read_query_value_handling.2.1 2 none "WH9" (by decide)).1,
   read_query_value_handling.2.2.1 2 none "IC1" (by decide),
   (read_query_value_handling.2.2.2.1 3 none "WH2" (by decide)).1,
   read_query_value_handling.2.2.2.2 3 none "AB12" (by decide)⟩

/-- Claim C5: `cancelOrder` (lines 375-397) resolves the remote order by the
UDF field when `'fe_order_id_udf'` is present and by `NumAtCard` otherwise;
when the lookup matches no order it fails with a not-found error naming the
external order id; when it matches and the remote cancel returns zero it
returns the resolved DocEntry. -/
theorem cancelOrder_contract
    (look : List (String × FilterSpec) → List (List (String × String)))
    (cancelRet : String → Int) (lastError : String) (o : OrderRef) :
    (∀ udf, o.feOrderIdUdf = some udf →
        cancelParams o = [(udf, FilterSpec.mk o.feOrderId none)])
    ∧ (o.feOrderIdUdf = none →
        cancelParams o = [("NumAtCard", FilterSpec.mk o.feOrderId none)])
    ∧ (look (cancelParams o) = [] →
        cancelOrder look cancelRet lastError o
          = .error (.exception ("Order " ++ o.feOrderId ++ " is not found.")))
    ∧ (∀ row rest boOrderId, look (cancelParams o) = row :: rest →
        dictGet row "DocEntry" = some boOrderId → cancelRet boOrderId = 0 →
        cancelOrder look cancelRet lastError o = .ok boOrderId) := by
  refine ⟨?_, ?_, ?_, ?_⟩
  · intro udf h
    simp [cancelParams, h]
  · intro h
    simp [cancelParams, h]
  · intro h
    simp [cancelOrder, h]
  · intro row rest boOrderId hlook hget hret
    simp [cancelOrder, hlook, hget, hret]

/-- Witness for claim C5: a missing order yields the not-found error naming
the external id `42`; a matched order with DocEntry `77` and a zero cancel
code yields `77`. -/
theorem cancelOrder_contract_witness :
    cancelOrder (fun _ => []) (fun _ => 0) "" (OrderRef.mk "42" none)
      = .error (.exception ("Order " ++ "42" ++ " is not found."))
    ∧ cancelOrder (fun _ => [[("DocEntry", "77")]]) (fun _ => 0) "" (OrderRef.mk "42" none)
      = .ok "77" :=
  ⟨(cancelOrder_contract (fun _ => []) (fun _ => 0) "" (OrderRef.mk "42" none)).2.2.1 rfl,
   (cancelOrder_contract (fun _ => [[("DocEntry", "77")]]) (fun _ => 0) ""
      (OrderRef.mk "42" none)).2.2.2 [("DocEntry", "77")] [] "77" rfl (by decide) rfl⟩

/-- Claim C1 (code-bug evidence): on a non-zero commit code `insertOrder`
(lines 360-364) raises the intended error carrying the remote last-error
text, but `insertContact` (lines 218-222) and `cancelOrder` (lines 389-393)
dereference `self.company` — an attribute `SAPB1Adaptor` does not define —
so they raise `AttributeError` instead of an error carrying the remote
last-error text. -/
theorem commit_nonzero_error_paths :
    insertOrderCommitCheck 1 "remote last error" = .error (.exception "remote last error")
    ∧ insertContactCommitCheck 1 "remote last error" = .error (.attributeError "company")
    ∧ insertContactCommitCheck 0 "remote last error" = .ok ()
    ∧ cancelOrder (fun _ => [[("DocEntry", "7")]]) (fun _ => 1) "remote last error"
        (OrderRef.mk "42" none) = .error (.attributeError "company")
    ∧ selfHasAttr "company" = false :=
  ⟨rfl, rfl, rfl, rfl, rfl⟩

/-- One step of the comprehension at line 427: Python evaluates
`key, v = s` on a key string `s` and then `v['value']`; every possible key
shape raises (`ValueError` unless the key has exactly two characters, in
which case `v` is a one-character string and indexing it with `'value'`
raises `TypeError`). -/
theorem keyIterStep_error (s : String) :
    ∃ e, (do
        let kv ← unpackStr2 s
        let value ← strGetItemStr kv.2 "value"
        pure (kv.1, value) : Except PyErr (String × String)) = Except.error e := by
  rcases hd : s.data with _ | ⟨a, tl⟩
  · exact ⟨.valueError "too many values to unpack",
      by simp [unpackStr2, hd, Bind.bind, Except.bind]⟩
  · rcases tl with _ | ⟨b, tl2⟩
    · exact ⟨.valueError "too many values to unpack",
        by simp [unpackStr2, hd, Bind.bind, Except.bind]⟩
    · rcases tl2 with _ | ⟨c, tl3⟩
      · exact ⟨.typeError "string indices must be integers",
          by simp [unpackStr2, strGetItemStr, hd, Bind.bind, Except.bind]⟩
      · exact ⟨.valueError "too many values to unpack",
          by simp [unpackStr2, hd, Bind.bind, Except.bind]⟩

/-- For every non-empty filter map, the parameter-mapping comprehension of
`getShipments` (line 427) raises, so `getShipments` raises before touching
the database. -/
theorem getShipments_nonempty_filter_raises
    (fetchShipments : String → List (String × String) → List (List (String × PyVal)))
    (fetchItems : String → PyVal → List (List (String × PyVal)))
    (num : Nat) (columns itemColumns : List String)
    (entry : String × FilterSpec) (rest : List (String × FilterSpec)) :
    ∃ e, getShipments fetchShipments fetchItems num columns (entry :: rest) itemColumns
      = .error e := by
  obtain ⟨e, he⟩ := keyIterStep_error entry.1
  refine ⟨e, ?_⟩
  have hcomp : shipmentsParamMapComp (entry :: rest) = .error e := by
    simp only [shipmentsParamMapComp, List.mapM_cons]
    rw [show (do
        let kv ← unpackStr2 entry.1
        let value ← strGetItemStr kv.2 "value"
        pure (kv.1, value) : Except PyErr (String × String)) = Except.error e from he]
    rfl
  simp only [getShipments, hcomp]
  rfl

/-- Claim C3 (code-bug evidence): `getShipments` called with the non-empty
filter map `{'CardCode': {'value': 'C20000'}}` raises while converting the
filter map (line 427 iterates `params.keys()` but destructures pairs),
instead of returning filtered shipment rows. -/
theorem getShipments_failing_input :
    getShipments (fun _ _ => []) (fun _ _ => []) 100 []
        [("CardCode", FilterSpec.mk "C20000" none)] []
      = .error (.valueError "too many values to unpack") := rfl

/-- `takeWhile` consumes exactly a block that satisfies the predicate up to
the first failing element. -/
theorem takeWhile_all_append (p : Char → Bool) (l : List Char) (x : Char) (r : List Char)
    (hl : ∀ c ∈ l, p c = true) (hx : p x = false) :
    (l ++ x :: r).takeWhile p = l := by
  induction l with
  | nil => simp [List.takeWhile_cons, hx]
  | cons a tl ih =>
    have ha : p a = true := hl a (List.mem_cons_self a tl)
    simp [List.takeWhile_cons, ha, ih (fun c hc => hl c (List.mem_cons_of_mem a hc))]

/-- In `prefix ++ ' ' :: suffix`, a space-free suffix is exactly the segment
after the last space, so equal strings of this shape have equal suffixes. -/
theorem append_space_suffix_inj (a1 a2 s1 s2 : List Char)
    (h1 : ' ' ∉ s1) (h2 : ' ' ∉ s2)
    (h : a1 ++ ' ' :: s1 = a2 ++ ' ' :: s2) : s1 = s2 := by
  have hrev := congrArg List.reverse h
  simp only [List.reverse_append, List.reverse_cons, List.append_assoc,
    List.singleton_append] at hrev
  have e1 : (s1.reverse ++ ' ' :: a1.reverse).takeWhile (fun c => c != ' ')
      = s1.reverse :=
    takeWhile_all_append _ _ _ _
      (fun c hc => by
        have hmem := List.mem_reverse.mp hc
        simp only [bne_iff_ne, ne_eq]
        exact fun hcc => h1 (hcc ▸ hmem))
      (by decide)
  have e2 : (s2.reverse ++ ' ' :: a2.reverse).takeWhile (fun c => c != ' ')
      = s2.reverse :=
    takeWhile_all_append _ _ _ _
      (fun c hc => by
        have hmem := List.mem_reverse.mp hc
        simp only [bne_iff_ne, ne_eq]
        exact fun hcc => h2 (hcc ▸ hmem))
      (by decide)
  have htw := congrArg (List.takeWhile (fun c => c != ' ')) hrev
  rw [e1, e2] at htw
  exact List.reverse_injective htw

/-- Claim C8: the synthesized contact name (lines 209-210) is
`'FirstName LastName'` truncated to 36 characters, then a space separator
and the rendered timestamp suffix `str(time())`.  Python renders a float
without spaces and injectively, so two calls at different timestamps have
distinct space-free suffixes; under those facts the synthesized names never
collide. -/
theorem insertContact_name_unique (f1 l1 t1 f2 l2 t2 : String)
    (h1 : ' ' ∉ t1.data) (h2 : ' ' ∉ t2.data) (hne : t1 ≠ t2) :
    insertContactName f1 l1 t1 ≠ insertContactName f2 l2 t2 := by
  intro heq
  apply hne
  have hd : (strTake (f1 ++ " " ++ l1) 36).data ++ ' ' :: t1.data
      = (strTake (f2 ++ " " ++ l2) 36).data ++ ' ' :: t2.data := by
    have h0 := congrArg String.data heq
    simpa [insertContactName, String.data_append,
      show (" " : String).data = [' '] from rfl] using h0
  exact String.ext (append_space_suffix_inj _ _ _ _ h1 h2 hd)

/-- Witness for claim C8 at two concrete timestamp renderings. -/
theorem insertContact_name_unique_witness :
    insertContactName "Ann" "Lee" "1602277757.25" ≠ insertContactName "Ann" "Lee" "1602277757.75" :=
  insertContact_name_unique "Ann" "Lee" "1602277757.25" "Ann" "Lee" "1602277757.75"
    (by decide) (by decide) (by decide)

/-- During the access phase, the business-object connection is opened at
most once: zero times if the context already carries `_COM`, else at most
once. -/
theorem runAccesses_com_opens (evs : List ConnEv) (ctx : AppCtx) :
    (runAccesses evs ctx).2.1 ≤ (if ctx.comAttr.isSome then 0 else 1) := by
  induction evs generalizing ctx with
  | nil => simp [runAccesses]
  | cons e rest ih =>
    cases e with
    | accessCom =>
      cases hc : ctx.comAttr with
      | some c =>
        have h := ih ctx
        simp [runAccesses, comAdaptorAccess, hc] at h ⊢
        omega
      | none =>
        have h := ih { ctx with comAttr := some (ConnHandle.mk true) }
        simp [runAccesses, comAdaptorAccess, hc] at h ⊢
        omega
    | accessSql =>
      cases hs : ctx.sqlAttr with
      | some c =>
        have h := ih ctx
        simp [runAccesses, sqlAdaptorAccess, hs] at h ⊢
        omega
      | none =>
        have h := ih { ctx with sqlAttr := some (ConnHandle.mk true) }
        simp [runAccesses, sqlAdaptorAccess, hs] at h ⊢
        omega

/-- Same bound for the database connection. -/
theorem runAccesses_sql_opens (evs : List ConnEv) (ctx : AppCtx) :
    (runAccesses evs ctx).2.2 ≤ (if ctx.sqlAttr.isSome then 0 else 1) := by
  induction evs generalizing ctx with
  | nil => simp [runAccesses]
  | cons e rest ih =>
    cases e with
    | accessCom =>
      cases hc : ctx.comAttr with
      | some c =>
        have h := ih ctx
        simp [runAccesses, comAdaptorAccess, hc] at h ⊢
        omega
      | none =>
        have h := ih { ctx with comAttr := some (ConnHandle.mk true) }
        simp [runAccesses, comAdaptorAccess, hc] at h ⊢
        omega
    | accessSql =>
      cases hs : ctx.sqlAttr with
      | some c =>
        have h := ih ctx
        simp [runAccesses, sqlAdaptorAccess, hs] at h ⊢
        omega
      | none =>
        have h := ih { ctx with sqlAttr := some (ConnHandle.mk true) }
        simp [runAccesses, sqlAdaptorAccess, hs] at h ⊢
        omega

/-- Claim C9: within one unit of work starting from a fresh context, each of
the two connections is opened at most once (lazily memoized on the context,
lines 124-143); the teardown hook (lines 105-110) disconnects each
connection whose attribute is present; and an access finding a closed
memoized handle returns it unchanged — it never reopens a connection. -/
theorem connection_lifecycle (evs : List ConnEv) :
    (runAccesses evs (AppCtx.mk none none)).2.1 ≤ 1
    ∧ (runAccesses evs (AppCtx.mk none none)).2.2 ≤ 1
    ∧ (∀ c, (runAccesses evs (AppCtx.mk none none)).1.comAttr = some c →
        (teardown (runAccesses evs (AppCtx.mk none none)).1).comAttr
          = some (ConnHandle.mk false))
    ∧ (∀ c, (runAccesses evs (AppCtx.mk none none)).1.sqlAttr = some c →
        (teardown (runAccesses evs (AppCtx.mk none none)).1).sqlAttr
          = some (ConnHandle.mk false))
    ∧ (∀ ctx : AppCtx, ctx.comAttr = some (ConnHandle.mk false) →
        comAdaptorAccess ctx = (ConnHandle.mk false, ctx, false))
    ∧ (∀ ctx : AppCtx, ctx.sqlAttr = some (ConnHandle.mk false) →
        sqlAdaptorAccess ctx = (ConnHandle.mk false, ctx, false)) := by
  refine ⟨?_, ?_, ?_, ?_, ?_, ?_⟩
  · simpa using runAccesses_com_opens evs (AppCtx.mk none none)
  · simpa using runAccesses_sql_opens evs (AppCtx.mk none none)
  · intro c hc
    simp [teardown, hc]
  · intro c hc
    simp [teardown, hc]
  · intro ctx hc
    simp [comAdaptorAccess, hc]
  · intro ctx hc
    simp [sqlAdaptorAccess, hc]

/-- Witness for claim C9: a unit of work with two COM accesses and one SQL
access opens the COM connection once; teardown closes it; accessing a
closed memoized handle does not reopen it. -/
theorem connection_lifecycle_witness :
    (runAccesses [ConnEv.accessCom, ConnEv.accessCom, ConnEv.accessSql]
        (AppCtx.mk none none)).2.1 ≤ 1
    ∧ (teardown (runAccesses [ConnEv.accessCom] (AppCtx.mk none none)).1).comAttr
        = some (ConnHandle.mk false)
    ∧ comAdaptorAccess (AppCtx.mk (some (ConnHandle.mk false)) none)
        = (ConnHandle.mk false, AppCtx.mk (some (ConnHandle.mk false)) none, false) :=
  ⟨(connection_lifecycle [ConnEv.accessCom, ConnEv.accessCom, ConnEv.accessSql]).1,
   (connection_lifecycle [ConnEv.accessCom]).2.2.1 (ConnHandle.mk true) rfl,
   (connection_lifecycle []).2.2.2.2.1 (AppCtx.mk (some (ConnHandle.mk false)) none) rfl⟩

/-- Once the shared default cell holds `['DocEntry']`, it never changes
again. -/
theorem shipDefaultCell_fixed (calls : List ShipCall) :
    shipDefaultCell calls ["DocEntry"] = ["DocEntry"] := by
  induction calls with
  | nil => rfl
  | cons c rest ih =>
    cases c with
    | noColumnsArg => simpa [shipDefaultCell, getShipmentsColumns] using ih
    | withColumnsArg cs => simpa [shipDefaultCell] using ih

/-- After the first call without a columns argument, the shared default cell
holds exactly `['DocEntry']`. -/
theorem shipDefaultCell_after_first (calls : List ShipCall)
    (hmem : ShipCall.noColumnsArg ∈ calls) :
    shipDefaultCell calls [] = ["DocEntry"] := by
  induction calls with
  | nil => cases hmem
  | cons c rest ih =>
    cases c with
    | noColumnsArg =>
      show shipDefaultCell rest (getShipmentsColumns []) = _
      rw [show getShipmentsColumns [] = ["DocEntry"] from rfl]
      exact shipDefaultCell_fixed rest
    | withColumnsArg l =>
      have hm : ShipCall.noColumnsArg ∈ rest := by
        rcases List.mem_cons.mp hmem with h | h
        · cases h
        · exact h
      exact ih hm

/-- Claim C10: `getShipments` (lines 418-419) appends `'DocEntry'` in place
to a columns list lacking it, mutating the caller's list; the default
`columns=[]` is one shared mutable list, so after the first call without a
columns argument the cell holds `['DocEntry']` and every later call without
a columns argument projects only `DocEntry` (rather than the `'*'` an empty
columns list would select). -/
theorem getShipments_default_columns (calls : List ShipCall) (cs : List String)
    (hmem : ShipCall.noColumnsArg ∈ calls) (hcs : "DocEntry" ∉ cs) :
    getShipmentsColumns cs = cs ++ ["DocEntry"]
    ∧ shipDefaultCell calls [] = ["DocEntry"]
    ∧ getShipmentsColsStr (shipDefaultCell calls []) = "DocEntry" := by
  have hcell := shipDefaultCell_after_first calls hmem
  refine ⟨?_, hcell, ?_⟩
  · simp [getShipmentsColumns, hcs]
  · rw [hcell]
    rfl

/-- Witness for claim C10: a call history of a no-argument call, an explicit
call, then another no-argument call; the last one projects only `DocEntry`;
and a caller's list `['CardCode']` is mutated in place. -/
theorem getShipments_default_columns_witness :
    getShipmentsColumns ["CardCode"] = ["CardCode"] ++ ["DocEntry"]
    ∧ shipDefaultCell
        [ShipCall.noColumnsArg, ShipCall.withColumnsArg ["X"], ShipCall.noColumnsArg] []
        = ["DocEntry"]
    ∧ getShipmentsColsStr
        (shipDefaultCell
          [ShipCall.noColumnsArg, ShipCall.withColumnsArg ["X"], ShipCall.noColumnsArg] [])
        = "DocEntry" :=
  getShipments_default_columns
    [ShipCall.noColumnsArg, ShipCall.withColumnsArg ["X"], ShipCall.noColumnsArg]
    ["CardCode"] (by decide) (by decide)

end FlaskSAPB1
